import Mathlib

/-!
# Verification of the conversational ticket-search agent (`src/chatbot/agent.py`)

This file shallowly embeds the orchestration core of the repository:
the router node (intent fallback and pagination arithmetic), the
fetch-and-filter executor, the client-side ticket filter, the scan-loop
decision logic, the responder, and the `run_chat` entry point together
with the LangGraph checkpointing semantics it actually uses.

External effects are modelled as oracle inputs:
* the language-model reply is an `Option ParsedReply` (`none` models a
  reply that is not parseable as a JSON object, which in the Python code
  lands in the bare `except` branch of `router_node`);
* the collaborator API is a `Fetcher` function from (offset, query) to a
  `FetchResult` (`err` models a non-200 HTTP status, for which
  `list_tickets` returns an `{"error": ...}` dict);
* the formatting model call in `rephrase_node` is a plain string oracle.

Python strings are Lean `String`s (`.lower()` ↦ `pyLower`,
`.strip()` ↦ `pyStrip`, `a in b` ↦ `pyIn a b` below); Python ints
are `Int`; dictionary keys that may be absent or `None` are `Option`.
-/

/-- Python's substring test `needle in hay` on lists of characters:
true iff `needle` occurs contiguously inside `hay` (the empty needle
always matches, as in Python). -/
def hasSubList (hay needle : List Char) : Bool :=
  if needle.isPrefixOf hay then true
  else
    match hay with
    | [] => false
    | _ :: t => hasSubList t needle

/-- Python's `needle in hay` for strings. -/
def pyIn (needle hay : String) : Bool :=
  hasSubList hay.data needle.data

/-- Python's `s.lower()` (ASCII case folding, character by character). -/
def pyLower (s : String) : String :=
  String.mk (s.data.map Char.toLower)

/-- Drops leading whitespace characters from a character list. -/
def dropWs : List Char → List Char
  | [] => []
  | c :: t => if c.isWhitespace then dropWs t else c :: t

/-- Python's `s.strip()`: removes leading and trailing whitespace. -/
def pyStrip (s : String) : String :=
  String.mk ((dropWs (dropWs s.data).reverse).reverse)

/-- A JSON-like field value as it appears in a fetched ticket record:
a bare string, a list of values (encoded with `fnil`/`fcons` cells, so a
JSON array `[x, y]` is `fcons x (fcons y fnil)`), an object (of which
`filter_tickets_tool.extract_names` only inspects the keys `"name"`,
`"full_name"`, `"email"`, `"firstName"`, whose values are modelled as
optional strings, `none` covering an absent key or a falsy value), or
null/absent. -/
inductive FieldData where
  | fstr (s : String)
  | fnil
  | fcons (head tail : FieldData)
  | fobj (name full_name email firstName : Option String)
  | fnull
deriving DecidableEq

/-- A ticket record, restricted to the three fields the client-side
filter reads (`ticket.get("assignee")`, `ticket.get("created_by")`,
`ticket.get("status")`); an absent key is `FieldData.fnull`. -/
structure Ticket where
  assignee : FieldData
  created_by : FieldData
  status : FieldData
deriving DecidableEq

/-- Truthiness of the optional strings held in state and parsed intents:
Python `if x:` is true for a present, non-empty string. -/
def truthy (o : Option String) : Bool :=
  match o with
  | some s => if s = "" then false else true
  | none => false

/-- `extract_names` from `filter_tickets_tool`: recursively collects
candidate strings from a field value.  A list recurses into each item in
order (the `names.extend(extract_names(item))` loop); an object
contributes the truthy values of the keys `name`, `full_name`, `email`,
`firstName` in that order; a bare string contributes itself. -/
def extract_names : FieldData → List String
  | FieldData.fstr s => [s]
  | FieldData.fnil => []
  | FieldData.fcons h t => extract_names h ++ extract_names t
  | FieldData.fobj name full_name email firstName =>
      (([name, full_name, email, firstName].filterMap id).filter fun s => s ≠ "")
  | FieldData.fnull => []

/-- The per-ticket person check of `filter_tickets_tool` (the
`# 1. Check Person` block): when an assignee filter is active (truthy),
the record passes iff some name extracted from its `assignee` or
`created_by` field matches the filter bidirectionally after lowercasing
and stripping both sides. -/
def match_person (assignee_name : Option String) (t : Ticket) : Bool :=
  if truthy assignee_name then
    let target := pyStrip (pyLower (assignee_name.getD ""))
    let all_names := extract_names t.assignee ++ extract_names t.created_by
    all_names.any fun name =>
      let n := pyStrip (pyLower name)
      pyIn target n || pyIn n target
  else true

/-- The per-ticket status check of `filter_tickets_tool` (the
`# 2. Check Status` block): when a status filter is active, the record
passes iff the lowered-and-stripped filter text occurs as a substring of
some lowered (not stripped) candidate extracted from the `status` field.
Note the direction: only `target_status in s_name.lower()` is tested. -/
def match_status (status_name : Option String) (t : Ticket) : Bool :=
  if truthy status_name then
    let target := pyStrip (pyLower (status_name.getD ""))
    (extract_names t.status).any fun s => pyIn target (pyLower s)
  else true

/-- `filter_tickets_tool`: keeps the tickets passing both the person and
the status check (`if match_person and match_status`). -/
def filter_tickets_tool (tickets : List Ticket)
    (assignee_name status_name : Option String) : List Ticket :=
  tickets.filter fun t => match_person assignee_name t && match_status status_name t

/-- One message of the conversation (`HumanMessage` / `AIMessage`). -/
inductive Msg where
  | user (content : String)
  | ai (content : String)
deriving DecidableEq

/-- Pagination parameters as stored in `page_params`
(`{"limit": ..., "offset": ...}`). -/
structure PageParams where
  limit : Int
  offset : Int
deriving DecidableEq

/-- The LangGraph `AgentState` TypedDict.  A key that may be absent (or
explicitly `None`) in the Python dict is an `Option`; `recursion_count`
is read everywhere with default `0`, so absence is conflated with `0`. -/
structure AgentState where
  messages : List Msg
  search_query : Option String
  assignee : Option String
  status : Option String
  page_params : Option PageParams
  search_mode : Option String
  recursion_count : Nat
  api_data : Option (List Ticket)

/-- The state of a freshly created conversation thread: every channel
unset.  (`recursion_count` absent reads as `0`.) -/
def emptyAgentState : AgentState :=
  { messages := [], search_query := none, assignee := none, status := none,
    page_params := none, search_mode := none, recursion_count := 0,
    api_data := none }

/-- The JSON object a well-formed model reply parses to in
`router_node`: each field is `parsed.get(...)`, with `none` for an
absent or `null` key (for `target_page`, also for a non-integer value,
mirroring the `isinstance(target_page, int)` guard). -/
structure ParsedReply where
  search_query : Option String
  assignee : Option String
  status : Option String
  target_page : Option Int
  action : Option String
  search_mode : Option String

/-- The `elif action == ...` arms of `router_node`'s offset logic:
`"next"` adds one page (20), `"prev"` subtracts one page and clamps at
0, anything else leaves the offset unchanged. -/
def resolveAction (currentOffset : Int) (action : Option String) : Int :=
  if action = some "next" then currentOffset + 20
  else if action = some "prev" then
    (if currentOffset - 20 < 0 then 0 else currentOffset - 20)
  else currentOffset

/-- The full `[PYTHON MATH LOGIC]` block of `router_node`: a truthy
integer `target_page` takes priority and yields `(target_page - 1) * 20`
clamped at 0; otherwise the `action` directive applies. -/
def resolveOffset (currentOffset : Int) (target_page : Option Int)
    (action : Option String) : Int :=
  match target_page with
  | some p =>
      if p ≠ 0 then
        (if (p - 1) * 20 < 0 then 0 else (p - 1) * 20)
      else resolveAction currentOffset action
  | none => resolveAction currentOffset action

/-- `router_node`: reads the current offset from state, asks the model
(whose parsed reply is the oracle argument, `none` for an unparseable
reply), and returns the state update.  On a parseable reply it stores
the parsed filters, the resolved offset, the search mode (defaulting to
`"single_page"`), resets `recursion_count` to 0 and clears `api_data`;
the free-text query is cleared when an assignee or status filter is
truthy (the `[GUARDRAIL]`).  On an unparseable reply (the bare `except`
branch) it returns only
`{"search_query": "", "search_mode": "single_page",
"page_params": {"limit": 20, "offset": 0}, "recursion_count": 0}`,
leaving all other channels (in particular `assignee`, `status`,
`api_data`) untouched. -/
def router_node (st : AgentState) (reply : Option ParsedReply) : AgentState :=
  let current_offset := (st.page_params.getD ⟨20, 0⟩).offset
  match reply with
  | some parsed =>
      let new_offset := resolveOffset current_offset parsed.target_page parsed.action
      let s_query := if truthy parsed.assignee || truthy parsed.status then ""
        else parsed.search_query.getD ""
      { st with
        search_query := some s_query,
        assignee := parsed.assignee,
        status := parsed.status,
        search_mode := some (parsed.search_mode.getD "single_page"),
        page_params := some ⟨20, new_offset⟩,
        recursion_count := 0,
        api_data := some [] }
  | none =>
      { st with
        search_query := some "",
        search_mode := some "single_page",
        page_params := some ⟨20, 0⟩,
        recursion_count := 0 }

/-- Result of one `list_tickets` call: `err` models a non-200 HTTP
status (for which the tool returns an `{"error": ...}` dict), `ok`
a successfully fetched page of records. -/
inductive FetchResult where
  | err
  | ok (tickets : List Ticket)

/-- The collaborator API as an oracle: offset and search query in, one
page out. -/
def Fetcher := Int → String → FetchResult

/-- The offset stored in the state's `page_params`
(`params.get("offset", 0)`; `page_params` itself is always set by
`router_node` before any node reads it, so the default is never hit on
reachable states). -/
def storedOffset (st : AgentState) : Int :=
  (st.page_params.getD ⟨20, 0⟩).offset

/-- The offset `fetch_process_node` actually fetches: the stored one,
except that the first deep-scan iteration (`search_mode == "deep_scan"
and recursion_count == 0`) is forced to offset 0. -/
def fetchOffset (st : AgentState) : Int :=
  if st.search_mode = some "deep_scan" ∧ st.recursion_count = 0 then 0
  else storedOffset st

/-- `fetch_process_node`: fetches the page at `fetchOffset` with the
stored query; an API error becomes an empty `api_data`
(`{"api_data": []}`); otherwise the page is passed through
`filter_tickets_tool` when an assignee or status filter is truthy and
stored in `api_data` as is otherwise. -/
def fetch_process_node (fetch : Fetcher) (st : AgentState) : AgentState :=
  match fetch (fetchOffset st) (st.search_query.getD "") with
  | FetchResult.err => { st with api_data := some [] }
  | FetchResult.ok raw =>
      if truthy st.assignee || truthy st.status then
        { st with api_data := some (filter_tickets_tool raw st.assignee st.status) }
      else
        { st with api_data := some raw }

/-- `decision_logic`, the conditional-edge function wired into the
graph by `build_agent`: `true` means route back to the processor
("loop"), `false` means proceed to `rephrase`.  Note it only *routes*:
the graph applies no state update on the loop edge. -/
def decision_logic (st : AgentState) : Bool :=
  if 0 < (st.api_data.getD []).length then false
  else if st.search_mode = some "deep_scan" ∧ st.recursion_count < 5 then true
  else false

/-- The two possible returns of `check_results_node`: the string
`"rephrase"`, or a state-update dict advancing the scan. -/
inductive CheckOutcome where
  | rephrase
  | update (page_params : PageParams) (recursion_count : Nat)
deriving DecidableEq

/-- `check_results_node`, as defined in the source: stop (`"rephrase"`)
when data was found, the mode is not `deep_scan`, or the counter reached
5; otherwise return the update that advances the offset by 20 and
increments the counter.  This function is *never registered in the
graph built by `build_agent`* — only `decision_logic` is. -/
def check_results_node (st : AgentState) : CheckOutcome :=
  if 0 < (st.api_data.getD []).length ∨ st.search_mode ≠ some "deep_scan"
      ∨ 5 ≤ st.recursion_count then
    CheckOutcome.rephrase
  else
    CheckOutcome.update ⟨20, storedOffset st + 20⟩ (st.recursion_count + 1)

/-- The scan note of `rephrase_node`: mentions `count + 1` pages when
the counter is positive. -/
def scanNote (count : Nat) : String :=
  if 0 < count then
    "(Scanned " ++ toString (count + 1) ++ " pages to find these results.)\n\n"
  else ""

/-- `rephrase_node`, with the formatting model call as a string oracle:
an empty result set yields the deterministic no-results message
(prefixed by the scan note); a non-empty one yields the model's
formatted reply. -/
def rephrase_node (llmReply : String) (st : AgentState) : String :=
  if (st.api_data.getD []).isEmpty then
    scanNote st.recursion_count ++ "No tickets found matching your criteria."
  else llmReply

/-- The processor/decision loop of the compiled graph: run
`fetch_process_node`, then follow `decision_logic` — back to the
processor on `true` (with the state passed through *unchanged*, exactly
as the conditional edge does), on `false` out of the loop.  The fuel
argument models LangGraph's recursion limit: `none` is the
`GraphRecursionError` abort of the turn. -/
def runLoop (fetch : Fetcher) : Nat → AgentState → Option AgentState
  | 0, _ => none
  | Nat.succ n, st =>
      let st' := fetch_process_node fetch st
      if decision_logic st' then runLoop fetch n st' else some st'

/-- A checkpointer (`MemorySaver`) keyed by thread id. -/
def Store := String → Option AgentState

/-- The store of a freshly constructed `MemorySaver`. -/
def freshStore : Store := fun _ => none

/-- Reading a thread's checkpoint: a missing thread starts from the
empty state. -/
def loadThread (store : Store) (tid : String) : AgentState :=
  (store tid).getD emptyAgentState

/-- Writing a thread's checkpoint. -/
def storeThread (store : Store) (tid : String) (st : AgentState) : Store :=
  fun k => if k = tid then some st else store k

/-- `agent.invoke({"messages": [HumanMessage(...)]}, config)` on the
graph compiled by `build_agent`: load the thread's state, overwrite the
`messages` channel with the input (the TypedDict declares no reducer, so
writes replace), run router → processor/loop → rephrase, append the
answer by overwriting `messages` again, and persist the final state
under the thread id.  `none` models the `GraphRecursionError` abort when
the loop exhausts the recursion limit. -/
def agent_invoke (fetch : Fetcher) (reply : Option ParsedReply)
    (llmReply : String) (store : Store) (tid msg : String) (fuel : Nat) :
    Option (String × Store) :=
  let prior := loadThread store tid
  let st0 := { prior with messages := [Msg.user msg] }
  let st1 := router_node st0 reply
  (runLoop fetch fuel st1).map fun stF =>
    let ans := rephrase_node llmReply stF
    (ans, storeThread store tid { stF with messages := [Msg.ai ans] })

/-- `tid = thread_id or "default"`: `None` and the empty string both
fall back to `"default"`. -/
def resolveTid (threadId : Option String) : String :=
  match threadId with
  | some t => if t = "" then "default" else t
  | none => "default"

/-- The state a `run_chat` call starts its thread from: since `run_chat`
constructs a fresh agent (and hence a fresh `MemorySaver`) on every
call, this is the load of `resolveTid threadId` from `freshStore`. -/
def run_chat_initial (threadId : Option String) : AgentState :=
  loadThread freshStore (resolveTid threadId)

/-- The `{"answer": ..., "thread_id": ...}` dict returned by
`run_chat`. -/
structure ChatResult where
  answer : String
  thread_id : String
deriving DecidableEq

/-- `run_chat`: builds a *new* agent (with a new in-memory checkpointer,
modelled by `freshStore`), resolves the thread id, invokes the graph
once, and returns the last message's content together with the thread
id.  `none` models the turn raising (the recursion-limit abort). -/
def run_chat (fetch : Fetcher) (reply : Option ParsedReply)
    (llmReply : String) (msg : String) (threadId : Option String)
    (fuel : Nat) : Option ChatResult :=
  let tid := resolveTid threadId
  (agent_invoke fetch reply llmReply freshStore tid msg fuel).map fun r =>
    { answer := r.1, thread_id := tid }

/-- A collaborator API whose every page is empty. -/
def emptyFetcher : Fetcher := fun _ _ => FetchResult.ok []

/-- A collaborator API that always signals a non-success status. -/
def errFetcher : Fetcher := fun _ _ => FetchResult.err

/-- A parsed model reply with every field absent (all defaults apply:
mode `single_page`, offset unchanged, no filters). -/
def blankReply : ParsedReply :=
  { search_query := none, assignee := none, status := none,
    target_page := none, action := none, search_mode := none }

/-- A parsed model reply requesting `deep_scan` mode. -/
def deepScanReply : ParsedReply :=
  { blankReply with search_mode := some "deep_scan" }

/-- A parsed model reply carrying the `"next"` navigation directive. -/
def nextReply : ParsedReply :=
  { blankReply with action := some "next" }

/-- The state at the entry of the processor loop for a deep-scan turn on
a fresh thread. -/
def deepScanStart : AgentState :=
  router_node { emptyAgentState with messages := [Msg.user "Show ALL tickets for Priya"] }
    (some deepScanReply)

/-- The state after the first (fruitless) deep-scan fetch of
`deepScanStart`: the state the conditional edge routes back into the
processor. -/
def deepScanAfterFetch : AgentState :=
  fetch_process_node emptyFetcher deepScanStart

/-- The state `router_node` produces for a fresh turn whose model reply
is unparseable (the bare `except` fallback applied to the entry state of
a `run_chat` turn). -/
def routerFallback (msg : String) : AgentState :=
  router_node { emptyAgentState with messages := [Msg.user msg] } none

/-- A deep-scan state whose Pagination Resolver left a nonzero stored
offset (for C8). -/
def deepScanAt100 : AgentState :=
  { emptyAgentState with
    search_mode := some "deep_scan",
    page_params := some ⟨20, 100⟩ }

/-- A ticket assigned to Alice but created by John Smith. -/
def creatorTicket : Ticket :=
  { assignee := FieldData.fobj (some "Alice Zhang") none none none,
    created_by := FieldData.fobj (some "John Smith") none none none,
    status := FieldData.fstr "Open" }

/-- A ticket with only a bare status string. -/
def statusTicket : Ticket :=
  { assignee := FieldData.fnull, created_by := FieldData.fnull,
    status := FieldData.fstr "Open" }

/-- A ticket assigned to John Smith with status "In Progress". -/
def johnTicket : Ticket :=
  { assignee := FieldData.fobj (some "John Smith") none none none,
    created_by := FieldData.fnull,
    status := FieldData.fstr "In Progress" }

/-- Modelled from the spec claim C5 for comparison with the code:
"the filter text is a case-insensitive substring of some extracted
candidate string OR that candidate is a substring of the filter text
(bidirectional matching, checked in both directions)". -/
def specBidiMatch (filterText cand : String) : Bool :=
  pyIn (pyLower filterText) (pyLower cand)
    || pyIn (pyLower cand) (pyLower filterText)

/-- Modelled from the spec claim C5 for comparison with
`filter_tickets_tool`: a record is retained iff, for each active filter
(assignee and status alike), some extracted candidate matches the filter
text bidirectionally; logical AND across the two filters. -/
def specRetains (t : Ticket) (assignee_name status_name : Option String) : Bool :=
  (if truthy assignee_name then
      (extract_names t.assignee ++ extract_names t.created_by).any
        (specBidiMatch (assignee_name.getD ""))
    else true)
  && (if truthy status_name then
      (extract_names t.status).any (specBidiMatch (status_name.getD ""))
    else true)

lemma fetch_process_node_of_fruitless (f : Fetcher)
    (hf : ∀ off q, f off q = FetchResult.ok [] ∨ f off q = FetchResult.err)
    (st : AgentState) :
    fetch_process_node f st = { st with api_data := some [] } := by
  unfold fetch_process_node
  rcases hf (fetchOffset st) (st.search_query.getD "") with h | h
  · simp only [h]
    split <;> rfl
  · simp only [h]

lemma decision_logic_of_scanning (st : AgentState)
    (h1 : st.search_mode = some "deep_scan") (h2 : st.recursion_count < 5) :
    decision_logic { st with api_data := some [] } = true := by
  simp [decision_logic, h1, h2]

lemma runLoop_stuck (f : Fetcher)
    (hf : ∀ st, fetch_process_node f st = { st with api_data := some [] }) :
    ∀ (n : Nat) (st : AgentState), st.search_mode = some "deep_scan" →
      st.recursion_count = 0 → runLoop f n st = none := by
  intro n
  induction n with
  | zero => intro st _ _; rfl
  | succ n ih =>
      intro st h1 h2
      have hd : decision_logic (fetch_process_node f st) = true := by
        rw [hf st]
        exact decision_logic_of_scanning st h1 (by omega)
      show (if decision_logic (fetch_process_node f st) then
          runLoop f n (fetch_process_node f st)
        else some (fetch_process_node f st)) = none
      rw [hd]
      simp only [if_true]
      exact ih (fetch_process_node f st) (by rw [hf st]; exact h1)
        (by rw [hf st]; exact h2)

lemma fetch_process_node_search_mode (f : Fetcher) (st : AgentState) :
    (fetch_process_node f st).search_mode = st.search_mode := by
  unfold fetch_process_node
  cases f (fetchOffset st) (st.search_query.getD "") with
  | err => rfl
  | ok raw => by_cases hb : (truthy st.assignee || truthy st.status) = true <;>
      simp [hb]

lemma decision_logic_not_deepscan (st : AgentState)
    (h : st.search_mode ≠ some "deep_scan") : decision_logic st = false := by
  unfold decision_logic
  split
  · rfl
  · rw [if_neg fun hc => h hc.1]

lemma runLoop_succ_not_deepscan (f : Fetcher) (n : Nat) (st : AgentState)
    (h : st.search_mode ≠ some "deep_scan") :
    runLoop f (n + 1) st = some (fetch_process_node f st) := by
  show (if decision_logic (fetch_process_node f st) then
      runLoop f n (fetch_process_node f st)
    else some (fetch_process_node f st)) = some (fetch_process_node f st)
  rw [decision_logic_not_deepscan _ (by rw [fetch_process_node_search_mode]; exact h)]
  simp

lemma agent_invoke_deepscan_none (f : Fetcher)
    (hf : ∀ st, fetch_process_node f st = { st with api_data := some [] })
    (llmReply : String) (store : Store) (tid msg : String) (fuel : Nat) :
    agent_invoke f (some deepScanReply) llmReply store tid msg fuel = none := by
  simp only [agent_invoke]
  rw [runLoop_stuck f hf fuel _ rfl rfl]
  rfl

lemma match_person_iff (a : String) (ha : a ≠ "") (t : Ticket) :
    match_person (some a) t = true ↔
      ∃ n ∈ extract_names t.assignee ++ extract_names t.created_by,
        (pyIn (pyStrip (pyLower a)) (pyStrip (pyLower n)) = true
          ∨ pyIn (pyStrip (pyLower n)) (pyStrip (pyLower a)) = true) := by
  have htr : truthy (some a) = true := by simp [truthy, ha]
  simp [match_person, htr, List.any_eq_true, List.mem_append, or_and_right,
    exists_or]

lemma match_status_iff (s : String) (hs : s ≠ "") (t : Ticket) :
    match_status (some s) t = true ↔
      ∃ c ∈ extract_names t.status,
        pyIn (pyStrip (pyLower s)) (pyLower c) = true := by
  have htr : truthy (some s) = true := by simp [truthy, hs]
  simp [match_status, htr, List.any_eq_true]

/-- C3: for every previous offset `o ≥ 0` and parsed navigation
directive, `router_node`'s offset logic resolves by priority: an
explicit target page `P ≥ 1` yields `max 0 ((P-1)*20)` regardless of any
action directive; otherwise `"next"` yields `o + 20`, `"prev"` yields
`max 0 (o - 20)`, and no directive leaves the offset at `o`.  The
resolved offset is never negative; in particular page 3 from offset 100
resolves to 40 and `"prev"` at offset 0 stays 0. -/
theorem pagination_resolver_c3 (o : Int) (act : Option String) (ho : 0 ≤ o) :
    (∀ P : Int, 1 ≤ P → resolveOffset o (some P) act = max 0 ((P - 1) * 20))
    ∧ resolveOffset o none (some "next") = o + 20
    ∧ resolveOffset o none (some "prev") = max 0 (o - 20)
    ∧ (act ≠ some "next" → act ≠ some "prev" → resolveOffset o none act = o)
    ∧ (∀ tp : Option Int, 0 ≤ resolveOffset o tp act)
    ∧ resolveOffset 100 (some 3) none = 40
    ∧ resolveOffset 0 none (some "prev") = 0 := by
  refine ⟨?_, ?_, ?_, ?_, ?_, by decide, by decide⟩
  · intro P hP
    simp only [resolveOffset]
    rw [if_pos (by omega : P ≠ 0)]
    rw [if_neg (by omega : ¬(P - 1) * 20 < 0), max_eq_right (by omega)]
  · rfl
  · show (if o - 20 < 0 then (0 : Int) else o - 20) = max 0 (o - 20)
    split <;> omega
  · intro h1 h2
    simp [resolveOffset, resolveAction, h1, h2]
  · intro tp
    rcases tp with _ | p <;> simp only [resolveOffset, resolveAction] <;>
      split_ifs <;> omega

/-- C3 witness: instantiating the resolver rules at offset 40 with no
pending action, `"next"` navigation advances to 60. -/
theorem pagination_resolver_c3_witness :
    resolveOffset 40 none (some "next") = 40 + 20 :=
  (pagination_resolver_c3 40 none (by decide)).2.1

/-- C6: whenever the parsed intent sets a (truthy) assignee or status
filter, the state `router_node` produces carries an empty free-text
search query, whatever `search_query` the model proposed. -/
theorem filters_clear_query_c6 (st : AgentState) (r : ParsedReply)
    (h : truthy r.assignee = true ∨ truthy r.status = true) :
    (router_node st (some r)).search_query = some "" := by
  have hb : (truthy r.assignee || truthy r.status) = true := by
    rcases h with h | h <;> simp [h]
  simp [router_node, hb]

/-- C6 witness: an assignee filter of `"john"` flushes a proposed
free-text query. -/
theorem filters_clear_query_c6_witness :
    (router_node emptyAgentState
      (some { blankReply with
              assignee := some "john",
              search_query := some "all the things" })).search_query =
      some "" :=
  filters_clear_query_c6 emptyAgentState _ (Or.inl (by decide))

/-- C8: `fetch_process_node` fetches offset 0 whenever the state is in
`deep_scan` mode with loop counter 0, regardless of the stored offset;
with a nonzero counter, or outside `deep_scan` mode, it fetches the
stored offset, so the override applies only to the first deep-scan
fetch. -/
theorem deep_scan_first_fetch_c8 (st : AgentState) :
    (st.search_mode = some "deep_scan" → st.recursion_count = 0 →
      fetchOffset st = 0)
    ∧ (st.recursion_count ≠ 0 → fetchOffset st = storedOffset st)
    ∧ (st.search_mode ≠ some "deep_scan" → fetchOffset st = storedOffset st) := by
  refine ⟨fun h1 h2 => ?_, fun h => ?_, fun h => ?_⟩
  · simp [fetchOffset, h1, h2]
  · unfold fetchOffset
    rw [if_neg fun hc => h hc.2]
  · unfold fetchOffset
    rw [if_neg fun hc => h hc.1]

/-- C8 witness: a first deep-scan fetch with stored offset 100 is forced
to offset 0. -/
theorem deep_scan_first_fetch_c8_witness :
    fetchOffset deepScanAt100 = 0 :=
  (deep_scan_first_fetch_c8 deepScanAt100).1 rfl rfl

/-- C10: for a non-empty assignee filter, the person check of
`filter_tickets_tool` passes exactly when some name extracted from the
record's `assignee` field *or* its `created_by` field matches the filter
text bidirectionally (case-insensitively, both sides stripped) — so a
record merely created by the named person passes the assignee filter. -/
theorem assignee_filter_includes_creator_c10 (t : Ticket) (a : String)
    (ha : a ≠ "") :
    match_person (some a) t = true ↔
      ∃ n ∈ extract_names t.assignee ++ extract_names t.created_by,
        (pyIn (pyStrip (pyLower a)) (pyStrip (pyLower n)) = true
          ∨ pyIn (pyStrip (pyLower n)) (pyStrip (pyLower a)) = true) :=
  match_person_iff a ha t

/-- C10 witness: `creatorTicket` is assigned to Alice Zhang but created
by John Smith, and passes the assignee filter `"john"`. -/
theorem assignee_filter_includes_creator_c10_witness :
    match_person (some "john") creatorTicket = true :=
  (assignee_filter_includes_creator_c10 creatorTicket "john" (by decide)).mpr
    ⟨"John Smith", by decide, Or.inl (by decide)⟩

/-- C5 counterexample: the spec-side bidirectional rule (`specRetains`,
modelled from the claim's words) retains `statusTicket` (status
`"Open"`) under the status filter `"Open Tickets"`, because the
candidate `"open"` is a substring of the filter text; the code's
`filter_tickets_tool` drops it, because the status check only tests the
filter-text-inside-candidate direction. -/
theorem filter_bidirectional_c5_counterexample :
    specRetains statusTicket none (some "Open Tickets") = true
    ∧ filter_tickets_tool [statusTicket] none (some "Open Tickets") = [] := by
  exact ⟨by decide, by decide⟩

/-- C5 amended: with both filters active (non-empty), a record is
retained iff it matches both; the assignee check is bidirectional
case-insensitive substring over the names extracted from `assignee` and
`created_by` (both sides lowered and stripped), but the status check is
one-directional: the lowered, stripped filter text must occur inside a
lowered candidate status — the reverse direction is not checked. -/
theorem filter_semantics_c5_amended (tickets : List Ticket) (t : Ticket)
    (a s : String) (ha : a ≠ "") (hs : s ≠ "") :
    t ∈ filter_tickets_tool tickets (some a) (some s) ↔
      t ∈ tickets
      ∧ (∃ n ∈ extract_names t.assignee ++ extract_names t.created_by,
          (pyIn (pyStrip (pyLower a)) (pyStrip (pyLower n)) = true
            ∨ pyIn (pyStrip (pyLower n)) (pyStrip (pyLower a)) = true))
      ∧ (∃ c ∈ extract_names t.status,
          pyIn (pyStrip (pyLower s)) (pyLower c) = true) := by
  rw [filter_tickets_tool, List.mem_filter, Bool.and_eq_true,
    match_person_iff a ha, match_status_iff s hs]

/-- C5 amended witness: `johnTicket` (assignee "John Smith", status
"In Progress") survives filters assignee `"john"`, status
`"progress"`. -/
theorem filter_semantics_c5_witness :
    johnTicket ∈ filter_tickets_tool [johnTicket] (some "john") (some "progress") :=
  (filter_semantics_c5_amended [johnTicket] johnTicket "john" "progress"
      (by decide) (by decide)).mpr
    ⟨by decide, ⟨"John Smith", by decide, Or.inl (by decide)⟩,
      ⟨"In Progress", by decide, by decide⟩⟩

/-- C1 (refuted — code bug): in `deep_scan` mode with every fetched page
empty, the compiled graph never terminates for any recursion budget:
the conditional edge (`decision_logic`) routes back to the processor
without applying `check_results_node`'s update, so the counter stays 0,
every retry refetches offset 0, a 6th (and every later) fetch is
attempted, and the turn ends in the recursion-limit abort instead of an
empty answer with a scanned-pages note. -/
theorem scan_loop_budget_c1 :
    (∀ fuel : Nat,
      run_chat emptyFetcher (some deepScanReply) "formatted"
        "Show ALL tickets for Priya" none fuel = none)
    ∧ fetchOffset deepScanAfterFetch = 0
    ∧ deepScanAfterFetch.recursion_count = 0 := by
  refine ⟨fun fuel => ?_, rfl, rfl⟩
  simp only [run_chat]
  rw [agent_invoke_deepscan_none emptyFetcher
    (fetch_process_node_of_fruitless emptyFetcher fun _ _ => Or.inl rfl)]
  rfl

/-- C2 (refuted — code bug): after the first empty deep-scan fetch the
controller decides to retry, but the state seen by the next fetch is
`deepScanAfterFetch` itself, unchanged: the loop counter is still 0 (not
incremented) and `page_params` is untouched (offset not advanced).  The
increment-and-advance logic exists only in `check_results_node`, which
would return the update `{limit 20, offset 20}, count 1` here but is
never registered in the graph built by `build_agent`. -/
theorem scan_retry_unchanged_c2 :
    decision_logic deepScanAfterFetch = true
    ∧ runLoop emptyFetcher 2 deepScanStart = runLoop emptyFetcher 1 deepScanAfterFetch
    ∧ deepScanAfterFetch.recursion_count = deepScanStart.recursion_count
    ∧ deepScanAfterFetch.page_params = deepScanStart.page_params
    ∧ check_results_node deepScanAfterFetch = CheckOutcome.update ⟨20, 20⟩ 1 := by
  refine ⟨rfl, ?_, rfl, rfl, by decide⟩
  show (if decision_logic deepScanAfterFetch then
      runLoop emptyFetcher 1 deepScanAfterFetch
    else some deepScanAfterFetch) = runLoop emptyFetcher 1 deepScanAfterFetch
  rw [show decision_logic deepScanAfterFetch = true from rfl]
  simp

/-- C7 (refuted in deep_scan — code bug): a non-success fetch always
yields an empty `api_data` for that page, and in `single_page` mode the
turn surfaces it as the plain "no results" answer; but in `deep_scan`
mode a persistently failing API makes the turn abort via the recursion
limit (for every budget) instead of surfacing a "no results" answer. -/
theorem api_error_empty_c7 :
    (∀ st : AgentState, (fetch_process_node errFetcher st).api_data = some [])
    ∧ (∀ fuel : Nat,
        run_chat errFetcher (some deepScanReply) "formatted"
          "Show ALL broken tickets" none fuel = none)
    ∧ run_chat errFetcher (some blankReply) "formatted" "list tickets" none 2 =
        some { answer := "No tickets found matching your criteria.",
               thread_id := "default" } := by
  refine ⟨fun st => ?_, fun fuel => ?_, by decide⟩
  · rw [fetch_process_node_of_fruitless errFetcher (fun _ _ => Or.inr rfl) st]
  · simp only [run_chat]
    rw [agent_invoke_deepscan_none errFetcher
      (fetch_process_node_of_fruitless errFetcher fun _ _ => Or.inr rfl)]
    rfl

/-- C4: on an unparseable model reply the router falls back to the safe
default — and since every `run_chat` turn starts its thread from the
fresh state, the resulting state has no filters, an empty free-text
query, offset 0 and `single_page` mode; the turn never raises at this
stage and completes with an answer for any positive budget. -/
theorem router_fallback_c4 (msg : String) (fetch : Fetcher)
    (llmReply : String) (fuel : Nat) (hfuel : 1 ≤ fuel) :
    (routerFallback msg).assignee = none
    ∧ (routerFallback msg).status = none
    ∧ (routerFallback msg).search_query = some ""
    ∧ (routerFallback msg).search_mode = some "single_page"
    ∧ (routerFallback msg).page_params = some ⟨20, 0⟩
    ∧ (run_chat fetch none llmReply msg none fuel).isSome = true := by
  refine ⟨rfl, rfl, rfl, rfl, rfl, ?_⟩
  obtain ⟨n, rfl⟩ : ∃ n, fuel = n + 1 := ⟨fuel - 1, by omega⟩
  simp only [run_chat, agent_invoke]
  rw [runLoop_succ_not_deepscan fetch n _
    (fun hc => absurd (Option.some.inj hc) (by decide))]
  simp

/-- C4 witness: a turn with message "hello", an unparseable reply and
budget 1 completes, with the fallback state as stated. -/
theorem router_fallback_c4_witness :
    (routerFallback "hello").assignee = none
    ∧ (routerFallback "hello").status = none
    ∧ (routerFallback "hello").search_query = some ""
    ∧ (routerFallback "hello").search_mode = some "single_page"
    ∧ (routerFallback "hello").page_params = some ⟨20, 0⟩
    ∧ (run_chat emptyFetcher none "formatted" "hello" none 1).isSome = true :=
  router_fallback_c4 "hello" emptyFetcher "formatted" 1 (by decide)

/-- C9 counterexample: a single graph invocation does persist the
turn's final state (offset 20 after a `"next"` turn) under thread
`"default"` in its own checkpointer — but that checkpointer lives only
inside the one `run_chat` call, because `run_chat` constructs a fresh
agent each time: the state any later omitted-thread-id `run_chat` call
starts from is the empty state (`page_params` absent), not the persisted
one, so callers omitting the thread id share no conversation state. -/
theorem run_chat_shared_state_c9_counterexample :
    (agent_invoke emptyFetcher (some nextReply) "formatted" freshStore
        "default" "next page" 2).map
        (fun r => (r.2 "default").map fun st => st.page_params) =
      some (some (some ⟨20, 20⟩))
    ∧ run_chat_initial none = emptyAgentState
    ∧ emptyAgentState.page_params = none := by
  exact ⟨by decide, rfl, rfl⟩

/-- C9 amended: a `run_chat` call with the thread id omitted runs under
(and returns) the fixed thread id `"default"`, but each call builds a
fresh agent and in-memory checkpointer, so the state the turn starts
from is always the empty state: omitted-thread-id callers do not
actually share persisted conversation state. -/
theorem run_chat_default_thread_c9 (fetch : Fetcher)
    (reply : Option ParsedReply) (llmReply msg : String) (fuel : Nat)
    (r : ChatResult) (h : run_chat fetch reply llmReply msg none fuel = some r) :
    r.thread_id = "default" ∧ run_chat_initial none = emptyAgentState := by
  refine ⟨?_, rfl⟩
  simp only [run_chat, resolveTid] at h
  cases hA : agent_invoke fetch reply llmReply freshStore "default" msg fuel with
  | none => rw [hA] at h; simp at h
  | some p =>
      rw [hA] at h
      simp only [Option.map_some'] at h
      have hr := Option.some.inj h
      rw [← hr]

/-- C9 witness: a concrete omitted-thread-id turn returns thread id
`"default"` and starts from the empty state. -/
theorem run_chat_default_thread_c9_witness :
    ({ answer := "No tickets found matching your criteria.",
       thread_id := "default" } : ChatResult).thread_id = "default"
    ∧ run_chat_initial none = emptyAgentState :=
  run_chat_default_thread_c9 emptyFetcher (some blankReply) "formatted" "hi" 2
    { answer := "No tickets found matching your criteria.",
      thread_id := "default" }
    (by decide)
